import Mathlib

/-!
Verification of the claims-triage pipeline (hackon repository).

The deterministic logic of the repository lives in `src/src/tools.py`
(class `ClaimTools`); the stage orchestration is expressed as natural-language
task descriptions in `src/src/tasks.py` and `src/tasks.py`.  Pure tool
functions are embedded directly; stage-level rules that exist only as task
descriptions are modelled from the spec and marked as such in their doc
comments.
-/

namespace ClaimsTriage

/-! ### Date parsing, embedding `datetime.strptime(s, '%Y-%m-%d')`

`check_for_duplicate_claim` parses both dates with format `%Y-%m-%d`
(a 4-digit year, a 1–2 digit month in 1..12, a 1–2 digit day valid for that
month) and compares day differences; a `ValueError` from parsing skips the
pair.  We embed the parse as an `Option`: `none` models the `ValueError`. -/

def isLeapYear (y : Nat) : Bool :=
  y % 4 == 0 && (y % 100 != 0 || y % 400 == 0)

def daysInMonth (y m : Nat) : Nat :=
  if m == 2 then (if isLeapYear y then 29 else 28)
  else if m == 4 || m == 6 || m == 9 || m == 11 then 30
  else 31

def daysBeforeMonth (y m : Nat) : Nat :=
  (List.range (m - 1)).foldl (fun acc i => acc + daysInMonth y (i + 1)) 0

/-- Proleptic-Gregorian ordinal day number (1 = 0001-01-01), as used by
`datetime.toordinal`; differences of ordinals are differences in days. -/
def toOrdinal (y m d : Nat) : Nat :=
  365 * (y - 1) + (y - 1) / 4 - (y - 1) / 100 + (y - 1) / 400 + daysBeforeMonth y m + d

/-- Split a character list at `'-'` separators (the splitting that
`strptime` with format `%Y-%m-%d` performs on the input string). -/
def splitFields : List Char → List Char → List (List Char)
  | [], acc => [acc.reverse]
  | c :: rest, acc =>
      if c == '-' then acc.reverse :: splitFields rest []
      else splitFields rest (c :: acc)

def digitsVal (cs : List Char) : Option Nat :=
  if cs.length > 0 && cs.all Char.isDigit then
    some (cs.foldl (fun acc c => 10 * acc + (c.toNat - 48)) 0)
  else none

/-- Embeds `datetime.strptime(s, '%Y-%m-%d')`: `none` models the `ValueError`
raised on an unparseable date, `some n` the parsed date as its ordinal day
(`%Y` is a 4-digit year, `%m`/`%d` are 1–2 digit fields, and the month/day
must form a real calendar date). -/
def parseDate (s : String) : Option Nat :=
  match splitFields s.data [] with
  | [ys, ms, ds] =>
    match digitsVal ys, digitsVal ms, digitsVal ds with
    | some y, some m, some d =>
      if ys.length == 4 && ms.length ≤ 2 && ds.length ≤ 2 &&
         1 ≤ y && 1 ≤ m && m ≤ 12 && 1 ≤ d && d ≤ daysInMonth y m
      then some (toOrdinal y m d) else none
    | _, _, _ => none
  | _ => none

/-! ### Data model -/

/-- One claim record, with the eight mandatory fields of the batch input
(`ClaimItem` in `src/claims_api.py`; `cost` is declared `int` there). -/
structure Claim where
  claim_id : String
  member_id : String
  provider_id : String
  procedure_code : String
  diagnosis_code : String
  cost : Int
  date_of_service : String
  claim_type : String
deriving DecidableEq, Repr

/-- The tuple stored in `ClaimTools._MOCK_CLAIMS_DB` by
`record_claim_for_duplicate_check` (src/src/tools.py): exactly the five
fields `claim_id`, `member_id`, `provider_id`, `procedure_code`,
`date_of_service`. -/
structure ClaimRecord where
  claim_id : String
  member_id : String
  provider_id : String
  procedure_code : String
  date_of_service : String
deriving DecidableEq, Repr

/-- Embeds `record_claim_for_duplicate_check` (src/src/tools.py): appends the
five-field record of the claim to the end of the batch DB list. -/
def record_claim_for_duplicate_check (db : List ClaimRecord) (c : Claim) : List ClaimRecord :=
  db ++ [{ claim_id := c.claim_id, member_id := c.member_id, provider_id := c.provider_id,
           procedure_code := c.procedure_code, date_of_service := c.date_of_service }]

/-- The per-pair comparison inside the loop of `check_for_duplicate_claim`
(src/src/tools.py): a recorded entry matches the current claim when it is not
a self-match by `claim_id`, the `member_id`/`provider_id`/`procedure_code`
triple coincides, both dates parse, and the dates are at most 3 days apart.
A `ValueError` on either date (either `parseDate` returning `none`) makes the
pair contribute `false` (the loop `continue`s). -/
def duplicate_pair_match (existing : ClaimRecord) (current : Claim) : Bool :=
  existing.claim_id != current.claim_id &&
  existing.member_id == current.member_id &&
  existing.provider_id == current.provider_id &&
  existing.procedure_code == current.procedure_code &&
  (match parseDate existing.date_of_service, parseDate current.date_of_service with
   | some d1, some d2 => ((d2 : Int) - (d1 : Int)).natAbs ≤ 3
   | _, _ => false)

/-- Embeds `check_for_duplicate_claim` (src/src/tools.py): returns `true` as
soon as some recorded entry matches, `false` after scanning the whole DB. -/
def check_for_duplicate_claim (db : List ClaimRecord) (current : Claim) : Bool :=
  db.any (fun existing => duplicate_pair_match existing current)

/-- Embeds `get_provider_claim_frequency` (src/src/tools.py):
`sum(1 for claim in ClaimTools._MOCK_CLAIMS_DB if claim['provider_id'] == provider_id)`. -/
def get_provider_claim_frequency (db : List ClaimRecord) (provider_id : String) : Nat :=
  db.countP (fun claim => claim.provider_id == provider_id)

/-! ### Reference-data queries (src/src/tools.py mock tables) -/

/-- Result shape of `check_member_eligibility`. -/
structure MemberInfo where
  eligible : Bool
  reason : Option String
deriving DecidableEq, Repr

/-- Embeds `ClaimTools._MOCK_MEMBERS` (src/src/tools.py), insertion order
preserved. -/
def MOCK_MEMBERS : List (String × MemberInfo) :=
  [("MBR001", ⟨true, none⟩), ("MBR002", ⟨true, none⟩),
   ("MBR003", ⟨false, some "Inactive policy"⟩)]

/-- Embeds `check_member_eligibility` (src/src/tools.py):
`ClaimTools._MOCK_MEMBERS.get(member_id, {"eligible": False, "reason": "Member ID not found"})`. -/
def check_member_eligibility (member_id : String) : MemberInfo :=
  (((MOCK_MEMBERS.find? (fun p => p.1 == member_id)).map Prod.snd)).getD
    ⟨false, some "Member ID not found"⟩

/-- Embeds `ClaimTools._MOCK_AVERAGE_COSTS` (src/src/tools.py). -/
def MOCK_AVERAGE_COSTS : List (String × ℚ) :=
  [("99285", 500), ("99213", 100), ("81002", 50)]

/-- Embeds `get_average_cost_for_procedure` (src/src/tools.py):
`ClaimTools._MOCK_AVERAGE_COSTS.get(procedure_code, 0.0)`. -/
def get_average_cost_for_procedure (procedure_code : String) : ℚ :=
  (((MOCK_AVERAGE_COSTS.find? (fun p => p.1 == procedure_code)).map Prod.snd)).getD 0

/-! ### Intake categorisation (src/src/tools.py `categorize_claim`) -/

/-- Embeds Python's `str.lower()` (character-wise lower-casing). -/
def strToLower (s : String) : String :=
  ⟨s.data.map Char.toLower⟩

/-- Embeds `categorize_claim` (src/src/tools.py): the argument models
`claim.get('claim_type', 'unknown')` (`none` when the field is absent);
the value is lower-cased and passed through when it is one of
outpatient/inpatient/pharmacy, anything else gives `"other"`. -/
def categorize_claim (claim_type : Option String) : String :=
  let ct := strToLower (claim_type.getD "unknown")
  if ct == "outpatient" || ct == "inpatient" || ct == "pharmacy" then ct
  else "other"

/-! ### Intake of the raw batch (src/src/tools.py `read_claims_data`) -/

/-- Outcome of `json.loads` on the raw batch string: `success` when the
string decodes to a list of claim records, `failure` (with the decoder's
message) when a `json.JSONDecodeError` is raised. -/
inductive JsonParseResult where
  | success (claims : List Claim)
  | failure (msg : String)
deriving DecidableEq, Repr

/-- Embeds `read_claims_data` (src/src/tools.py).  The `Except` codomain is
the channel through which a Python exception would reach the caller: the
`try/except json.JSONDecodeError` handler catches the decode error, prints
it, and returns `[]`, so the function always returns `Except.ok`. -/
def read_claims_data : JsonParseResult → Except String (List Claim)
  | .success claims => Except.ok claims
  | .failure _ => Except.ok []

/-! ### Anomaly checks at stage level

The stage orchestration is expressed as task descriptions
(src/src/tasks.py `detect_anomalies`, src/tasks.py `detect_anomalies`);
the deterministic rules below embed those descriptions and the spec. -/

/-- Modelled from the spec (§4.4, cost outlier; the `detect_anomalies` task
descriptions state only the strict comparison against the average, with
multiplier 2.5 in src/tasks.py and 3 in src/src/tasks.py, so the multiplier
is a parameter): flagged iff the average-cost baseline is nonzero and
`cost > multiplier × averageCost(procedure_code)`; a zero average (absent
code) means no baseline, and the check is skipped. -/
def cost_outlier_flag (multiplier : ℚ) (c : Claim) : Bool :=
  let avg := get_average_cost_for_procedure c.procedure_code
  avg != 0 && (c.cost : ℚ) > multiplier * avg

/-- Modelled from the spec (§4.4, high-frequency provider) and the
`detect_anomalies` task description at src/tasks.py lines 73–74: once a
provider's claim count in the batch exceeds the threshold 3, all claims of
that provider in the batch are flagged (retroactive backfill). -/
def high_frequency_flag (batch : List Claim) (c : Claim) : Bool :=
  get_provider_claim_frequency (batch.foldl record_claim_for_duplicate_check [])
    c.provider_id > 3

/-- Modelled from the spec (§4.4, duplicate check ordering): the valid
claims of a batch are processed in submission order; each claim is checked
against the batch state and then recorded into it.  Returns, in order, each
claim's id paired with its duplicate flag. -/
def process_duplicates (db : List ClaimRecord) : List Claim → List (String × Bool)
  | [] => []
  | c :: rest =>
      (c.claim_id, check_for_duplicate_claim db c) ::
        process_duplicates (record_claim_for_duplicate_check db c) rest

/-! ### Routing (src/src/tasks.py `route_claims`) -/

/-- A claim as it reaches the Router: enriched with `validation_status`
and `anomaly_score` (plus fields the routing rule must ignore). -/
structure ScoredClaim where
  claim_id : String
  provider_id : String
  cost : Int
  validation_status : String
  anomaly_score : Nat
  anomaly_reason : Option String
deriving DecidableEq, Repr

/-- Modelled from the spec (§4.6) and the `route_claims` task description
(src/src/tasks.py): `final_routing = approved` iff
`validation_status = valid` and `anomaly_score = 0`, otherwise `audit`. -/
def route_claim (c : ScoredClaim) : String :=
  if c.validation_status == "valid" && c.anomaly_score == 0 then "approved"
  else "audit"

/-! ### Audit aggregation and report (src/src/tools.py `generate_audit_report`) -/

/-- A claim as it reaches the audit summariser.  `generate_audit_report`
reads `claim['claim_id']` directly and uses `.get` defaults for the other
fields, so those are `Option`s (`none` models an absent key). -/
structure AuditClaim where
  claim_id : String
  provider_id : Option String
  cost : Option Int
  anomaly_reason : Option String
  anomaly_explanation : Option String
  final_routing : String
deriving DecidableEq, Repr

/-- Embeds Python's `str.replace('_', ' ')` (single-character replace). -/
def replaceUnderscores (s : String) : String :=
  ⟨s.data.map (fun c => if c == '_' then ' ' else c)⟩

/-- Character loop of Python's `str.title()`: a letter is upper-cased when
the previous character is not a letter, lower-cased otherwise. -/
def titleChars : Bool → List Char → List Char
  | _, [] => []
  | prevAlpha, c :: rest =>
      (if c.isAlpha then (if prevAlpha then c.toLower else c.toUpper) else c) ::
        titleChars c.isAlpha rest

/-- Embeds Python's `str.title()`. -/
def pythonTitle (s : String) : String :=
  ⟨titleChars false s.data⟩

/-- The tally label of a claim in `generate_audit_report`:
`claim.get('anomaly_reason', 'General Anomaly').replace('_', ' ').title()`. -/
def anomaly_label (reason : Option String) : String :=
  pythonTitle (replaceUnderscores (reason.getD "General Anomaly"))

/-- Embeds the `provider_grouping` dict update of `generate_audit_report`:
insert `c` at the end of the list for key `p`, creating the key at the end
in first-appearance order (Python dicts preserve insertion order). -/
def group_append (g : List (String × List AuditClaim)) (p : String) (c : AuditClaim) :
    List (String × List AuditClaim) :=
  if g.any (fun q => q.1 == p) then
    g.map (fun q => if q.1 == p then (q.1, q.2 ++ [c]) else q)
  else g ++ [(p, [c])]

/-- Embeds the `anomaly_type_counts` dict update of `generate_audit_report`:
`anomaly_type_counts[label] = anomaly_type_counts.get(label, 0) + 1`. -/
def count_bump (t : List (String × Nat)) (l : String) : List (String × Nat) :=
  if t.any (fun q => q.1 == l) then
    t.map (fun q => if q.1 == l then (q.1, q.2 + 1) else q)
  else t ++ [(l, 1)]

/-- Embeds the single pass of `generate_audit_report` that builds
`provider_grouping` and `anomaly_type_counts` over the flagged claims. -/
def audit_aggregate (flagged_claims : List AuditClaim) :
    List (String × List AuditClaim) × List (String × Nat) :=
  flagged_claims.foldl
    (fun st c =>
      (group_append st.1 (c.provider_id.getD "Unknown Provider") c,
       count_bump st.2 (anomaly_label c.anomaly_reason)))
    ([], [])

/-- The per-claim lines under a provider heading in `generate_audit_report`. -/
def claim_line (c : AuditClaim) : String :=
  "- Claim ID: `" ++ c.claim_id ++ "`\n" ++
  "  - Cost: $" ++ (match c.cost with | some n => toString n | none => "N/A") ++ "\n" ++
  "  - Reason: " ++ pythonTitle (replaceUnderscores (c.anomaly_reason.getD "N/A")) ++ "\n" ++
  "  - Explanation: " ++ c.anomaly_explanation.getD "N/A" ++ "\n"

/-- Embeds `generate_audit_report` (src/src/tools.py): the empty input
returns the fixed sentence; otherwise the markdown report is assembled from
the provider grouping and the anomaly-type tally. -/
def generate_audit_report (flagged_claims : List AuditClaim) : String :=
  if flagged_claims.isEmpty then "No claims were flagged for audit."
  else
    let st := audit_aggregate flagged_claims
    "# Audit Summary Report\n\n" ++ "## Grouped by Provider\n" ++
    String.join (st.1.map (fun pg =>
      "### Provider ID: " ++ pg.1 ++ "\n" ++ String.join (pg.2.map claim_line) ++ "\n")) ++
    "## Anomaly Type Summary\n" ++
    String.join (st.2.map (fun tc =>
      "- **" ++ tc.1 ++ "**: " ++ toString tc.2 ++ " claims\n"))

/-- Modelled from the spec (§4.7) and the `summarize_audit` task description
(src/src/tasks.py): filter the routed batch to `final_routing = audit` and
render the report with the tool. -/
def summarize_audit (batch : List AuditClaim) : String :=
  generate_audit_report (batch.filter (fun c => c.final_routing == "audit"))

/-! ### C1: the routing decision table -/

/-- C1: for every claim reaching the Router, `final_routing = approved`
iff `validation_status = valid` and `anomaly_score = 0`; in every other
case `final_routing = audit`; and no other claim field influences the
decision (any two claims agreeing on those two fields are routed alike). -/
theorem routing_decision_table (c : ScoredClaim) :
    (route_claim c = "approved" ↔ (c.validation_status = "valid" ∧ c.anomaly_score = 0)) ∧
    (route_claim c = "audit" ↔ ¬(c.validation_status = "valid" ∧ c.anomaly_score = 0)) ∧
    (∀ c' : ScoredClaim, c'.validation_status = c.validation_status →
      c'.anomaly_score = c.anomaly_score → route_claim c' = route_claim c) := by
  have hb : (c.validation_status == "valid" && c.anomaly_score == 0) = true ↔
      (c.validation_status = "valid" ∧ c.anomaly_score = 0) := by
    simp [Bool.and_eq_true]
  refine ⟨?_, ?_, ?_⟩
  · by_cases h : c.validation_status = "valid" ∧ c.anomaly_score = 0
    · simp [route_claim, h.1, h.2]
    · have hc : (c.validation_status == "valid" && c.anomaly_score == 0) = false := by
        rw [Bool.eq_false_iff]
        intro hcon
        exact h (hb.mp hcon)
      simp only [route_claim, hc, if_false]
      constructor
      · intro hcon
        exact absurd hcon (by decide)
      · intro hcon
        exact absurd hcon h
  · by_cases h : c.validation_status = "valid" ∧ c.anomaly_score = 0
    · simp only [route_claim, hb.mpr h, if_true]
      constructor
      · intro hcon
        exact absurd hcon (by decide)
      · intro hcon
        exact absurd h hcon
    · have hc : (c.validation_status == "valid" && c.anomaly_score == 0) = false := by
        rw [Bool.eq_false_iff]
        intro hcon
        exact h (hb.mp hcon)
      simp only [route_claim, hc, if_false]
      exact ⟨fun _ => h, fun _ => rfl⟩
  · intro c' h1 h2
    simp only [route_claim, h1, h2]

/-- Witness for C1 at concrete claims: a valid claim with anomaly score 90
is routed to audit, a valid claim with score 0 to approved, and a claim
agreeing with the first on the two routing fields is routed identically. -/
theorem routing_decision_table_witness :
    route_claim ⟨"CLM001", "PRV001", 1200, "valid", 90, some "high_cost"⟩ = "audit" ∧
    route_claim ⟨"CLM002", "PRV001", 400, "valid", 0, none⟩ = "approved" ∧
    route_claim ⟨"CLM009", "PRV777", 5, "valid", 90, none⟩ =
      route_claim ⟨"CLM001", "PRV001", 1200, "valid", 90, some "high_cost"⟩ := by
  refine ⟨?_, ?_, ?_⟩
  · exact (routing_decision_table _).2.1.mpr (by decide)
  · exact (routing_decision_table _).1.mpr ⟨rfl, rfl⟩
  · exact (routing_decision_table ⟨"CLM001", "PRV001", 1200, "valid", 90, some "high_cost"⟩).2.2
      ⟨"CLM009", "PRV777", 5, "valid", 90, none⟩ rfl rfl

/-! ### C5: malformed batch input -/

/-- C5 counterexample: on a malformed batch input (a `json.JSONDecodeError`
from `json.loads`), `read_claims_data` does not fail with any error — the
handler swallows the decode error and the run continues with the empty
claims list. -/
theorem read_claims_data_counterexample :
    read_claims_data (JsonParseResult.failure "Expecting value: line 1 column 1 (char 0)") =
      Except.ok [] := rfl

/-- C5 amended: when the top-level batch input is malformed, the decode
error is caught inside `read_claims_data`, which returns an empty claims
list without raising; the batch therefore proceeds with no claims, so no
per-claim output is produced, but the run does not fail. -/
theorem read_claims_data_malformed (msg : String) :
    read_claims_data (JsonParseResult.failure msg) = Except.ok [] := rfl

/-! ### C6: empty-audit report -/

/-- C6: if no claim of the routed batch has `final_routing = audit`, the
audit summary is exactly the single sentence
"No claims were flagged for audit." (the report generator returns that
sentence, and nothing else, on an empty flagged list). -/
theorem audit_report_empty (batch : List AuditClaim)
    (h : ∀ c ∈ batch, c.final_routing ≠ "audit") :
    summarize_audit batch = "No claims were flagged for audit." ∧
    generate_audit_report [] = "No claims were flagged for audit." := by
  constructor
  · unfold summarize_audit
    have hf : batch.filter (fun c => c.final_routing == "audit") = [] := by
      rw [List.filter_eq_nil_iff]
      intro c hc
      simp only [beq_iff_eq]
      exact h c hc
    rw [hf]
    rfl
  · rfl

/-- Witness for C6 at a concrete batch whose only claim is approved. -/
theorem audit_report_empty_witness :
    summarize_audit [⟨"CLM002", some "PRV001", some 400, none, none, "approved"⟩] =
      "No claims were flagged for audit." :=
  (audit_report_empty [⟨"CLM002", some "PRV001", some 400, none, none, "approved"⟩]
    (by decide)).1

/-! ### C7: totality of the reference-data queries -/

/-- C7 counterexample: for the absent member id "MBR999" the eligibility
query answers `eligible = false`, but its reason is the code's literal
"Member ID not found", not the claimed "member not found". -/
theorem member_eligibility_counterexample :
    MOCK_MEMBERS.find? (fun p => p.1 == "MBR999") = none ∧
    check_member_eligibility "MBR999" ≠ ⟨false, some "member not found"⟩ ∧
    check_member_eligibility "MBR999" = ⟨false, some "Member ID not found"⟩ := by
  decide

/-- C7 amended: the reference-data queries are total: every member id
absent from the member table yields `eligible = false` with reason
"Member ID not found" (the code's literal string), and every procedure
code absent from the average-cost table yields average cost 0. -/
theorem reference_queries_total (m code : String)
    (hm : MOCK_MEMBERS.find? (fun p => p.1 == m) = none)
    (hc : MOCK_AVERAGE_COSTS.find? (fun p => p.1 == code) = none) :
    check_member_eligibility m = ⟨false, some "Member ID not found"⟩ ∧
    get_average_cost_for_procedure code = 0 := by
  constructor
  · unfold check_member_eligibility
    rw [hm]
    rfl
  · unfold get_average_cost_for_procedure
    rw [hc]
    rfl

/-- Witness for C7 at the concrete absent keys "MBR999" and "INVALID_CPT". -/
theorem reference_queries_total_witness :
    check_member_eligibility "MBR999" = ⟨false, some "Member ID not found"⟩ ∧
    get_average_cost_for_procedure "INVALID_CPT" = 0 :=
  reference_queries_total "MBR999" "INVALID_CPT" (by decide) (by decide)

/-! ### C9: category assignment from claim_type -/

/-- C9 counterexample: the claim type "Outpatient" is neither passed
through unchanged nor mapped to "other" — `categorize_claim` lower-cases
it to "outpatient". -/
theorem categorize_claim_counterexample :
    categorize_claim (some "Outpatient") = "outpatient" ∧
    categorize_claim (some "Outpatient") ≠ "other" ∧
    categorize_claim (some "Outpatient") ≠ "Outpatient" := by
  decide

/-- C9 amended: the claim type is lower-cased first; when the lower-cased
value is outpatient/inpatient/pharmacy it is returned (so those three exact
values pass through unchanged), and every other lower-cased value maps to
"other". -/
theorem categorize_claim_amended (s : String) :
    ((strToLower s = "outpatient" ∨ strToLower s = "inpatient" ∨ strToLower s = "pharmacy") →
      categorize_claim (some s) = strToLower s) ∧
    (¬(strToLower s = "outpatient" ∨ strToLower s = "inpatient" ∨ strToLower s = "pharmacy") →
      categorize_claim (some s) = "other") ∧
    ((s = "outpatient" ∨ s = "inpatient" ∨ s = "pharmacy") →
      categorize_claim (some s) = s) := by
  have hcond : (strToLower s == "outpatient" || strToLower s == "inpatient" ||
      strToLower s == "pharmacy") = true ↔
      (strToLower s = "outpatient" ∨ strToLower s = "inpatient" ∨ strToLower s = "pharmacy") := by
    simp [Bool.or_eq_true, or_assoc]
  refine ⟨?_, ?_, ?_⟩
  · intro h
    simp only [categorize_claim, Option.getD_some, hcond.mpr h, if_true]
  · intro h
    have hc : (strToLower s == "outpatient" || strToLower s == "inpatient" ||
        strToLower s == "pharmacy") = false := by
      rw [Bool.eq_false_iff]
      intro hcon
      exact h (hcond.mp hcon)
    simp [categorize_claim, Option.getD_some, hc]
  · rintro (rfl | rfl | rfl) <;> decide

/-- Witness for C9 at concrete claim types: "pharmacy" passes through
unchanged, "weird" maps to "other". -/
theorem categorize_claim_amended_witness :
    categorize_claim (some "pharmacy") = "pharmacy" ∧
    categorize_claim (some "weird") = "other" := by
  constructor
  · exact (categorize_claim_amended "pharmacy").2.2 (Or.inr (Or.inr rfl))
  · exact (categorize_claim_amended "weird").2.1 (by decide)

/-! ### C2, C8: duplicate detection -/

/-- Propositional characterisation of the per-pair comparison of
`check_for_duplicate_claim`. -/
theorem duplicate_pair_match_iff (e : ClaimRecord) (cur : Claim) :
    duplicate_pair_match e cur = true ↔
      (e.claim_id ≠ cur.claim_id ∧ e.member_id = cur.member_id ∧
       e.provider_id = cur.provider_id ∧ e.procedure_code = cur.procedure_code ∧
       ∃ d1 d2, parseDate e.date_of_service = some d1 ∧
         parseDate cur.date_of_service = some d2 ∧
         ((d2 : Int) - (d1 : Int)).natAbs ≤ 3) := by
  unfold duplicate_pair_match
  cases h1 : parseDate e.date_of_service with
  | none =>
    cases h2 : parseDate cur.date_of_service with
    | none => simp [h1, h2]
    | some d2 => simp [h1, h2]
  | some d1 =>
    cases h2 : parseDate cur.date_of_service with
    | none => simp [h1, h2]
    | some d2 => simp [h1, h2, Bool.and_eq_true, bne_iff_ne, and_assoc]

/-- C2: the duplicate check flags a claim iff the batch state holds a
recorded entry with the same member/provider/procedure triple whose
parsed date of service is within 3 days (inclusive) of the current
claim's parsed date, excluding entries with the current claim's own
claim id; and, valid claims being recorded in submission order right
around their own check, of two matching claims the one processed second
is flagged and the first is not, with reversal of the submission order
reversing which one is flagged. -/
theorem duplicate_check_iff_and_order :
    (∀ (db : List ClaimRecord) (cur : Claim),
      check_for_duplicate_claim db cur = true ↔
        ∃ e ∈ db, e.claim_id ≠ cur.claim_id ∧ e.member_id = cur.member_id ∧
          e.provider_id = cur.provider_id ∧ e.procedure_code = cur.procedure_code ∧
          ∃ d1 d2, parseDate e.date_of_service = some d1 ∧
            parseDate cur.date_of_service = some d2 ∧
            ((d2 : Int) - (d1 : Int)).natAbs ≤ 3) ∧
    (∀ A B : Claim, A.claim_id ≠ B.claim_id →
      A.member_id = B.member_id → A.provider_id = B.provider_id →
      A.procedure_code = B.procedure_code →
      ∀ dA dB, parseDate A.date_of_service = some dA →
        parseDate B.date_of_service = some dB →
        ((dB : Int) - (dA : Int)).natAbs ≤ 3 →
        process_duplicates [] [A, B] = [(A.claim_id, false), (B.claim_id, true)] ∧
        process_duplicates [] [B, A] = [(B.claim_id, false), (A.claim_id, true)]) := by
  constructor
  · intro db cur
    simp only [check_for_duplicate_claim, List.any_eq_true, duplicate_pair_match_iff]
  · intro A B hid hm hp hc dA dB hdA hdB hle
    have hpairAB : duplicate_pair_match
        ⟨A.claim_id, A.member_id, A.provider_id, A.procedure_code, A.date_of_service⟩ B = true :=
      (duplicate_pair_match_iff _ _).mpr ⟨hid, hm, hp, hc, dA, dB, hdA, hdB, hle⟩
    have hle' : ((dA : Int) - (dB : Int)).natAbs ≤ 3 := by
      rw [show (dA : Int) - (dB : Int) = -((dB : Int) - (dA : Int)) by ring, Int.natAbs_neg]
      exact hle
    have hpairBA : duplicate_pair_match
        ⟨B.claim_id, B.member_id, B.provider_id, B.procedure_code, B.date_of_service⟩ A = true :=
      (duplicate_pair_match_iff _ _).mpr
        ⟨fun hEq => hid hEq.symm, hm.symm, hp.symm, hc.symm, dB, dA, hdB, hdA, hle'⟩
    constructor
    · simp [process_duplicates, check_for_duplicate_claim,
            record_claim_for_duplicate_check, hpairAB]
    · simp [process_duplicates, check_for_duplicate_claim,
            record_claim_for_duplicate_check, hpairBA]

/-- Witness for C2 at the two near-duplicate sample claims CLM002 and
CLM005 of src/src/main.py (same member/provider/procedure, one day
apart): processed in order, the second is flagged; reversed, the other. -/
theorem duplicate_check_iff_and_order_witness :
    process_duplicates []
      [⟨"CLM002", "MBR002", "PRV001", "99285", "M54.5", 400, "2025-07-16", "outpatient"⟩,
       ⟨"CLM005", "MBR002", "PRV001", "99285", "M54.5", 400, "2025-07-17", "outpatient"⟩] =
      [("CLM002", false), ("CLM005", true)] ∧
    process_duplicates []
      [⟨"CLM005", "MBR002", "PRV001", "99285", "M54.5", 400, "2025-07-17", "outpatient"⟩,
       ⟨"CLM002", "MBR002", "PRV001", "99285", "M54.5", 400, "2025-07-16", "outpatient"⟩] =
      [("CLM005", false), ("CLM002", true)] :=
  duplicate_check_iff_and_order.2
    ⟨"CLM002", "MBR002", "PRV001", "99285", "M54.5", 400, "2025-07-16", "outpatient"⟩
    ⟨"CLM005", "MBR002", "PRV001", "99285", "M54.5", 400, "2025-07-17", "outpatient"⟩
    (by decide) rfl rfl rfl 739448 739449 (by decide) (by decide) (by decide)

/-- The per-pair comparison is `false` whenever the current claim's date
does not parse. -/
theorem pair_match_false_of_cur_date_none (e : ClaimRecord) (cur : Claim)
    (h : parseDate cur.date_of_service = none) :
    duplicate_pair_match e cur = false := by
  unfold duplicate_pair_match
  cases h1 : parseDate e.date_of_service with
  | none => simp [h1, h]
  | some d1 => simp [h1, h]

/-- The per-pair comparison is `false` whenever the recorded entry's date
does not parse. -/
theorem pair_match_false_of_rec_date_none (e : ClaimRecord) (cur : Claim)
    (h : parseDate e.date_of_service = none) :
    duplicate_pair_match e cur = false := by
  unfold duplicate_pair_match
  simp [h]

/-- C8: an unparseable `date_of_service` only skips the affected pairwise
comparisons: a current claim with an unparseable date is never flagged
(every pair contributes "not duplicate"), and a recorded entry with an
unparseable date drops out of the scan while the remaining recorded
entries are still compared; the check always returns a boolean, so the
batch never fails. -/
theorem duplicate_check_date_error_skip :
    (∀ (db : List ClaimRecord) (cur : Claim),
      parseDate cur.date_of_service = none →
      check_for_duplicate_claim db cur = false) ∧
    (∀ (e : ClaimRecord) (db : List ClaimRecord) (cur : Claim),
      parseDate e.date_of_service = none →
      check_for_duplicate_claim (e :: db) cur = check_for_duplicate_claim db cur) := by
  constructor
  · intro db cur h
    unfold check_for_duplicate_claim
    rw [List.any_eq_false]
    intro e _
    rw [pair_match_false_of_cur_date_none e cur h]
    decide
  · intro e db cur h
    unfold check_for_duplicate_claim
    rw [List.any_cons, pair_match_false_of_rec_date_none e cur h, Bool.false_or]

/-- Witness for C8 at concrete inputs: a recorded entry with the
unparseable date "not-a-date" is skipped, the remaining recorded
duplicate is still found, and a current claim with an unparseable date is
not flagged against a matching recorded entry. -/
theorem duplicate_check_date_error_skip_witness :
    parseDate "not-a-date" = none ∧
    check_for_duplicate_claim
        [⟨"CLM008", "MBR002", "PRV001", "99285", "not-a-date"⟩,
         ⟨"CLM002", "MBR002", "PRV001", "99285", "2025-07-16"⟩]
        ⟨"CLM005", "MBR002", "PRV001", "99285", "M54.5", 400, "2025-07-17", "outpatient"⟩ =
      check_for_duplicate_claim
        [⟨"CLM002", "MBR002", "PRV001", "99285", "2025-07-16"⟩]
        ⟨"CLM005", "MBR002", "PRV001", "99285", "M54.5", 400, "2025-07-17", "outpatient"⟩ ∧
    check_for_duplicate_claim
        [⟨"CLM002", "MBR002", "PRV001", "99285", "2025-07-16"⟩]
        ⟨"CLM005", "MBR002", "PRV001", "99285", "M54.5", 400, "2025-07-17", "outpatient"⟩ =
      true ∧
    check_for_duplicate_claim
        [⟨"CLM002", "MBR002", "PRV001", "99285", "2025-07-16"⟩]
        ⟨"CLM005", "MBR002", "PRV001", "99285", "M54.5", 400, "not-a-date", "outpatient"⟩ =
      false := by
  refine ⟨by decide, ?_, by decide, ?_⟩
  · exact duplicate_check_date_error_skip.2
      ⟨"CLM008", "MBR002", "PRV001", "99285", "not-a-date"⟩
      [⟨"CLM002", "MBR002", "PRV001", "99285", "2025-07-16"⟩]
      ⟨"CLM005", "MBR002", "PRV001", "99285", "M54.5", 400, "2025-07-17", "outpatient"⟩
      (by decide)
  · exact duplicate_check_date_error_skip.1
      [⟨"CLM002", "MBR002", "PRV001", "99285", "2025-07-16"⟩]
      ⟨"CLM005", "MBR002", "PRV001", "99285", "M54.5", 400, "not-a-date", "outpatient"⟩
      (by decide)

/-! ### C3: high-frequency provider -/

/-- Folding a batch through `record_claim_for_duplicate_check` appends one
DB entry per claim, so the provider frequency over the built DB is the
starting frequency plus the provider's claim count in the batch. -/
theorem freq_foldl (batch : List Claim) (db : List ClaimRecord) (p : String) :
    get_provider_claim_frequency (batch.foldl record_claim_for_duplicate_check db) p =
      get_provider_claim_frequency db p + batch.countP (fun c => c.provider_id == p) := by
  induction batch generalizing db with
  | nil => simp
  | cons c rest ih =>
    rw [List.foldl_cons, ih, List.countP_cons]
    simp only [get_provider_claim_frequency, record_claim_for_duplicate_check,
      List.countP_append, List.countP_cons, List.countP_nil]
    omega

/-- C3: with the high-frequency threshold 3, a provider with exactly 3
valid claims in the batch has none of them flagged (in particular the 3rd
is not); as soon as the provider's batch count exceeds 3 (a 4th claim),
every claim of that provider in the batch is flagged — the triggering
claim and, by backfill, all of the provider's prior claims. -/
theorem high_frequency_boundary_backfill (batch : List Claim) (p : String) :
    (batch.countP (fun c => c.provider_id == p) = 3 →
      ∀ c ∈ batch, c.provider_id = p → high_frequency_flag batch c = false) ∧
    (batch.countP (fun c => c.provider_id == p) > 3 →
      ∀ c ∈ batch, c.provider_id = p → high_frequency_flag batch c = true) := by
  constructor
  · intro h3 c _ hcp
    unfold high_frequency_flag
    rw [hcp, freq_foldl batch [] p, h3]
    simp [get_provider_claim_frequency]
  · intro h4 c _ hcp
    unfold high_frequency_flag
    rw [hcp, freq_foldl batch [] p]
    simp only [get_provider_claim_frequency, List.countP_nil, decide_eq_true_eq]
    omega

/-- Witness for C3 at concrete batches: with exactly 3 claims from PRV001
the 3rd claim is not flagged; with a 4th claim from PRV001 the 4th is
flagged and the flag is backfilled onto the provider's 1st claim. -/
theorem high_frequency_boundary_backfill_witness :
    high_frequency_flag
      [⟨"CLM001", "MBR001", "PRV001", "99285", "M54.5", 1200, "2025-07-15", "outpatient"⟩,
       ⟨"CLM002", "MBR002", "PRV001", "99285", "M54.5", 400, "2025-07-16", "outpatient"⟩,
       ⟨"CLM006", "MBR001", "PRV001", "99213", "I10", 120, "2025-07-19", "outpatient"⟩]
      ⟨"CLM006", "MBR001", "PRV001", "99213", "I10", 120, "2025-07-19", "outpatient"⟩ = false ∧
    high_frequency_flag
      [⟨"CLM001", "MBR001", "PRV001", "99285", "M54.5", 1200, "2025-07-15", "outpatient"⟩,
       ⟨"CLM002", "MBR002", "PRV001", "99285", "M54.5", 400, "2025-07-16", "outpatient"⟩,
       ⟨"CLM006", "MBR001", "PRV001", "99213", "I10", 120, "2025-07-19", "outpatient"⟩,
       ⟨"CLM007", "MBR002", "PRV001", "99213", "I10", 110, "2025-07-20", "outpatient"⟩]
      ⟨"CLM007", "MBR002", "PRV001", "99213", "I10", 110, "2025-07-20", "outpatient"⟩ = true ∧
    high_frequency_flag
      [⟨"CLM001", "MBR001", "PRV001", "99285", "M54.5", 1200, "2025-07-15", "outpatient"⟩,
       ⟨"CLM002", "MBR002", "PRV001", "99285", "M54.5", 400, "2025-07-16", "outpatient"⟩,
       ⟨"CLM006", "MBR001", "PRV001", "99213", "I10", 120, "2025-07-19", "outpatient"⟩,
       ⟨"CLM007", "MBR002", "PRV001", "99213", "I10", 110, "2025-07-20", "outpatient"⟩]
      ⟨"CLM001", "MBR001", "PRV001", "99285", "M54.5", 1200, "2025-07-15", "outpatient"⟩ = true := by
  refine ⟨?_, ?_, ?_⟩
  · exact (high_frequency_boundary_backfill _ "PRV001").1 (by decide) _ (by decide) rfl
  · exact (high_frequency_boundary_backfill _ "PRV001").2 (by decide) _ (by decide) rfl
  · exact (high_frequency_boundary_backfill _ "PRV001").2 (by decide) _ (by decide) rfl

/-! ### C4: cost outlier -/

/-- C4: the cost-outlier check flags a claim iff the average-cost baseline
is nonzero and the cost is strictly greater than multiplier × average; a
cost exactly equal to the product is not flagged, one unit above it is;
and a zero average (no baseline) means the check never flags. -/
theorem cost_outlier_boundary (m : ℚ) (c : Claim) :
    (cost_outlier_flag m c = true ↔
      (get_average_cost_for_procedure c.procedure_code ≠ 0 ∧
        m * get_average_cost_for_procedure c.procedure_code < (c.cost : ℚ))) ∧
    ((c.cost : ℚ) = m * get_average_cost_for_procedure c.procedure_code →
      cost_outlier_flag m c = false) ∧
    (get_average_cost_for_procedure c.procedure_code = 0 →
      cost_outlier_flag m c = false) ∧
    (get_average_cost_for_procedure c.procedure_code ≠ 0 →
      (c.cost : ℚ) = m * get_average_cost_for_procedure c.procedure_code + 1 →
      cost_outlier_flag m c = true) := by
  have hiff : cost_outlier_flag m c = true ↔
      (get_average_cost_for_procedure c.procedure_code ≠ 0 ∧
        m * get_average_cost_for_procedure c.procedure_code < (c.cost : ℚ)) := by
    unfold cost_outlier_flag
    simp [Bool.and_eq_true, bne_iff_ne, gt_iff_lt]
  refine ⟨hiff, ?_, ?_, ?_⟩
  · intro heq
    rw [Bool.eq_false_iff]
    intro hcon
    have hlt := (hiff.mp hcon).2
    rw [heq] at hlt
    exact lt_irrefl _ hlt
  · intro h0
    rw [Bool.eq_false_iff]
    intro hcon
    exact (hiff.mp hcon).1 h0
  · intro h0 heq
    exact hiff.mpr ⟨h0, by rw [heq]; exact lt_add_one _⟩

/-- Witness for C4 with multiplier 5/2 and procedure 99213 (average 100):
cost 250 = 5/2 × 100 is not flagged, cost 251 is, and a procedure with no
baseline (average 0) is never flagged. -/
theorem cost_outlier_boundary_witness :
    cost_outlier_flag (5/2)
      ⟨"CLM101", "MBR001", "PRV001", "99213", "J06.9", 250, "2025-07-18", "outpatient"⟩ = false ∧
    cost_outlier_flag (5/2)
      ⟨"CLM102", "MBR001", "PRV001", "99213", "J06.9", 251, "2025-07-18", "outpatient"⟩ = true ∧
    cost_outlier_flag (5/2)
      ⟨"CLM103", "MBR001", "PRV001", "INVALID_CPT", "J06.9", 251, "2025-07-18", "outpatient"⟩ =
      false := by
  have havg : get_average_cost_for_procedure "99213" = 100 := rfl
  refine ⟨?_, ?_, ?_⟩
  · apply (cost_outlier_boundary (5/2)
      ⟨"CLM101", "MBR001", "PRV001", "99213", "J06.9", 250, "2025-07-18", "outpatient"⟩).2.1
    show ((250 : Int) : ℚ) = 5 / 2 * get_average_cost_for_procedure "99213"
    rw [havg]
    norm_num
  · apply (cost_outlier_boundary (5/2)
      ⟨"CLM102", "MBR001", "PRV001", "99213", "J06.9", 251, "2025-07-18", "outpatient"⟩).2.2.2
    · show get_average_cost_for_procedure "99213" ≠ 0
      rw [havg]
      norm_num
    · show ((251 : Int) : ℚ) = 5 / 2 * get_average_cost_for_procedure "99213" + 1
      rw [havg]
      norm_num
  · exact (cost_outlier_boundary (5/2)
      ⟨"CLM103", "MBR001", "PRV001", "INVALID_CPT", "J06.9", 251, "2025-07-18", "outpatient"⟩).2.2.1
      rfl

/-! ### C10: the anomaly-type tally sums to the number of flagged claims -/

/-- The increment branch of `count_bump` adds, across the whole list, one
per entry whose key matches. -/
theorem count_bump_sum_update (t : List (String × Nat)) (l : String) :
    ((t.map (fun q => if q.1 == l then (q.1, q.2 + 1) else q)).map Prod.snd).sum =
      (t.map Prod.snd).sum + t.countP (fun q => q.1 == l) := by
  induction t with
  | nil => simp
  | cons q rest ih =>
    by_cases hq : (q.1 == l) = true
    · simp only [List.map_cons, List.countP_cons, hq, if_true, List.sum_cons, ih]
      omega
    · simp only [List.map_cons, List.countP_cons, hq, if_false, List.sum_cons, ih,
        Bool.false_eq_true]
      omega

/-- With pairwise-distinct keys (the dict invariant) a present key occurs
exactly once. -/
theorem countP_key_eq_one (t : List (String × Nat)) (l : String)
    (hnd : (t.map Prod.fst).Nodup) (hany : t.any (fun q => q.1 == l) = true) :
    t.countP (fun q => q.1 == l) = 1 := by
  induction t with
  | nil => simp at hany
  | cons q rest ih =>
    rw [List.map_cons, List.nodup_cons] at hnd
    by_cases hq : (q.1 == l) = true
    · have hql : q.1 = l := by simpa using hq
      have hzero : rest.countP (fun r => r.1 == l) = 0 := by
        rw [List.countP_eq_zero]
        intro r hr hcon
        have hrl : r.1 = l := by simpa using hcon
        exact hnd.1 (by rw [hql, ← hrl]; exact List.mem_map_of_mem _ hr)
      rw [List.countP_cons, hzero, if_pos hq]
    · have hany' : rest.any (fun r => r.1 == l) = true := by
        rw [List.any_cons] at hany
        rcases (Bool.or_eq_true _ _).mp hany with h | h
        · exact absurd h hq
        · exact h
      rw [List.countP_cons, if_neg hq, ih hnd.2 hany']

/-- `count_bump` preserves the key list up to appending the fresh key. -/
theorem count_bump_keys (t : List (String × Nat)) (l : String) :
    (count_bump t l).map Prod.fst =
      if t.any (fun q => q.1 == l) then t.map Prod.fst
      else t.map Prod.fst ++ [l] := by
  unfold count_bump
  by_cases hany : t.any (fun q => q.1 == l) = true
  · rw [if_pos hany, if_pos hany, List.map_map]
    apply List.map_congr_left
    intro q _
    by_cases hq : (q.1 == l) = true <;> simp [Function.comp, hq]
  · rw [if_neg hany, if_neg hany]
    simp

/-- `count_bump` preserves distinctness of the keys. -/
theorem count_bump_nodup (t : List (String × Nat)) (l : String)
    (hnd : (t.map Prod.fst).Nodup) : ((count_bump t l).map Prod.fst).Nodup := by
  rw [count_bump_keys]
  by_cases hany : t.any (fun q => q.1 == l) = true
  · rw [if_pos hany]
    exact hnd
  · rw [if_neg hany]
    have hl : l ∉ t.map Prod.fst := by
      intro hcon
      apply hany
      rw [List.any_eq_true]
      obtain ⟨q, hq, hq1⟩ := List.mem_map.mp hcon
      exact ⟨q, hq, by simp [hq1]⟩
    simp [List.nodup_append, hnd, hl, List.disjoint_singleton]

/-- One `count_bump` adds exactly one to the total of the tallied counts
(given the dict invariant of pairwise-distinct keys). -/
theorem count_bump_sum (t : List (String × Nat)) (l : String)
    (hnd : (t.map Prod.fst).Nodup) :
    ((count_bump t l).map Prod.snd).sum = (t.map Prod.snd).sum + 1 := by
  unfold count_bump
  by_cases hany : t.any (fun q => q.1 == l) = true
  · rw [if_pos hany, count_bump_sum_update, countP_key_eq_one t l hnd hany]
  · rw [if_neg hany]
    simp

/-- Invariant of the aggregation pass of `generate_audit_report`: starting
from a tally with distinct keys, folding the flagged claims adds exactly
the number of claims to the total of the counts, and keeps keys distinct. -/
theorem audit_fold_invariant (cls : List AuditClaim)
    (g : List (String × List AuditClaim)) (t : List (String × Nat))
    (hnd : (t.map Prod.fst).Nodup) :
    (((cls.foldl
        (fun st c =>
          (group_append st.1 (c.provider_id.getD "Unknown Provider") c,
           count_bump st.2 (anomaly_label c.anomaly_reason))) (g, t)).2).map Prod.snd).sum =
      (t.map Prod.snd).sum + cls.length ∧
    ((((cls.foldl
        (fun st c =>
          (group_append st.1 (c.provider_id.getD "Unknown Provider") c,
           count_bump st.2 (anomaly_label c.anomaly_reason))) (g, t)).2).map Prod.fst)).Nodup := by
  induction cls generalizing g t with
  | nil => simpa using hnd
  | cons c rest ih =>
    rw [List.foldl_cons]
    have hnd' := count_bump_nodup t (anomaly_label c.anomaly_reason) hnd
    obtain ⟨ihs, ihn⟩ :=
      ih (group_append g (c.provider_id.getD "Unknown Provider") c)
        (count_bump t (anomaly_label c.anomaly_reason)) hnd'
    refine ⟨?_, ihn⟩
    rw [ihs, count_bump_sum t (anomaly_label c.anomaly_reason) hnd, List.length_cons]
    omega

/-- C10: in the audit report built from a non-empty flagged-claims list,
every flagged claim is tallied under exactly one anomaly-type label (its
single `anomaly_reason` field, defaulting to "General Anomaly" when
absent), so the counts of the Anomaly Type Summary sum to the number of
flagged claims. -/
theorem audit_tally_sum (flagged_claims : List AuditClaim) (_h : flagged_claims ≠ []) :
    (((audit_aggregate flagged_claims).2).map Prod.snd).sum = flagged_claims.length := by
  unfold audit_aggregate
  have hinv := (audit_fold_invariant flagged_claims [] [] (by simp)).1
  simpa using hinv

/-- Witness for C10 at a concrete flagged list of three claims — two
sharing the label High Cost, one with an absent reason tallied as
General Anomaly: the counts sum to 3. -/
theorem audit_tally_sum_witness :
    (((audit_aggregate
        [⟨"CLM001", some "PRV001", some 1200, some "high_cost", some "cost above average", "audit"⟩,
         ⟨"CLM004", some "PRV003", some 100, some "high_cost", none, "audit"⟩,
         ⟨"CLM007", some "PRV002", none, none, none, "audit"⟩]).2).map Prod.snd).sum = 3 := by
  rw [audit_tally_sum
    [⟨"CLM001", some "PRV001", some 1200, some "high_cost", some "cost above average", "audit"⟩,
     ⟨"CLM004", some "PRV003", some 100, some "high_cost", none, "audit"⟩,
     ⟨"CLM007", some "PRV002", none, none, none, "audit"⟩] (by decide)]
  rfl

end ClaimsTriage
